import Mathlib

/-!
Verification of the `/analyze` request handler of `app.py` (a Flask image
analysis backend).  The handler is embedded shallowly: the pure control
flow of `analyze_image` becomes a Lean function over a request value and
an environment describing the outcomes of the effectful steps (PIL image
decoding, the Gemini model call).  Library behaviour the handler relies
on (werkzeug `secure_filename`, werkzeug `FileStorage.__bool__`, PIL
`Image.thumbnail`, PIL `ImageOps.exif_transpose`) is embedded from those
libraries' sources, since the handler's observable behaviour depends on it.
-/

/-- Python whitespace as recognised by `str.split()` for ASCII input:
space, tab, newline, carriage return, vertical tab, form feed. -/
def pyIsSpace (c : Char) : Bool :=
  c = ' ' || c = '\t' || c = '\n' || c = '\r' || c = '\x0b' || c = '\x0c'

/-- Characters kept by werkzeug's `_filename_ascii_strip_re.sub("", ...)`
step: the regex removes every character outside `[A-Za-z0-9_.-]`. -/
def safeFilenameChar (c : Char) : Bool :=
  c.isAlpha || c.isDigit || c = '_' || c = '.' || c = '-'

/-- Python `str.split()` (no argument): split on runs of whitespace,
discarding empty pieces, on a character list. -/
def pySplit : List Char → List Char → List (List Char)
  | [], acc => if acc.isEmpty then [] else [acc.reverse]
  | c :: cs, acc =>
    if pyIsSpace c then
      if acc.isEmpty then pySplit cs [] else acc.reverse :: pySplit cs []
    else pySplit cs (c :: acc)

/-- Python `str.strip("._")` on a character list: drop leading and
trailing `.` and `_` characters. -/
def stripDotUnderscore (l : List Char) : List Char :=
  ((l.dropWhile fun c => c = '.' || c = '_').reverse.dropWhile
    fun c => c = '.' || c = '_').reverse

/-- werkzeug's `secure_filename`, embedded for a POSIX host (`os.sep` is
`/`, `os.path.altsep` is `None`, `os.name` is not `nt` so the Windows
device-file branch is skipped).  The NFKD-normalise-then-ASCII-encode
step is the identity on ASCII characters; non-ASCII characters are
dropped here, matching `encode("ascii", "ignore")` for characters whose
NFKD form has no ASCII part.  Then: replace the path separator by a
space, `"_".join(filename.split())`, strip the unsafe characters, and
strip leading/trailing `.` and `_`. -/
def secure_filename (s : String) : String :=
  let ascii := s.toList.filter fun c => c.toNat < 128
  let sepReplaced := ascii.map fun c => if c = '/' then ' ' else c
  let joined := List.intercalate ['_'] (pySplit sepReplaced [])
  String.mk (stripDotUnderscore (joined.filter safeFilenameChar))

/-- PIL `Image.thumbnail`'s `round_aspect` helper:
`max(min(math.floor(number), math.ceil(number), key=key), 1)`.
Python's two-argument `min` with a key returns the first argument on
ties, so the floor wins a tie. -/
def round_aspect (number : ℚ) (key : ℤ → ℚ) : ℤ :=
  max (if key ⌈number⌉ < key ⌊number⌋ then ⌈number⌉ else ⌊number⌋) 1

/-- Dimension computation of PIL `Image.thumbnail` (PIL `Image.py`):
given the current size `(w, h)` and the requested bounding size
`(bw, bh)`, return the size of the image after the call.  The method
returns immediately when both bounds already cover the image; otherwise
it shrinks one requested dimension to preserve the aspect ratio (with
`round_aspect` rounding and a floor of 1) and resizes to the computed
size.  Python's IEEE-double arithmetic is modelled with exact rationals;
on an exact tie between the two adjacent integers the double rounding
may select the other one, but both candidates are the clamped floor or
ceiling of the exact value, which is all the proofs below use. -/
def thumbnailSize (w h bw bh : ℕ) : ℕ × ℕ :=
  if w ≤ bw ∧ h ≤ bh then (w, h)
  else if (w : ℚ) / (h : ℚ) ≤ (bw : ℚ) / (bh : ℚ) then
    ((round_aspect ((bh : ℚ) * ((w : ℚ) / (h : ℚ)))
        fun n => |(w : ℚ) / (h : ℚ) - (n : ℚ) / (bh : ℚ)|).toNat, bh)
  else
    (bw, (round_aspect ((bw : ℚ) / ((w : ℚ) / (h : ℚ)))
        fun n => if n = 0 then 0
          else |(w : ℚ) / (h : ℚ) - (bw : ℚ) / (n : ℚ)|).toNat)

/-- Size effect of PIL `ImageOps.exif_transpose`: EXIF orientation tags
5 (transpose), 6 (rotate 270), 7 (transverse) and 8 (rotate 90) swap
width and height; tags 2, 3, 4 flip or rotate by 180 degrees and keep
the dimensions; any other tag value leaves the image untouched. -/
def exifTransposeSize (tag : ℕ) (w h : ℕ) : ℕ × ℕ :=
  if tag = 5 ∨ tag = 6 ∨ tag = 7 ∨ tag = 8 then (h, w) else (w, h)

/-- Outcome of `Image.open` (plus the subsequent lazy pixel access) on a
byte buffer.  `ok` carries the decoded dimensions and the EXIF
orientation tag (0 when absent).  `unidentified` is PIL's
`UnidentifiedImageError` (raised e.g. on an empty buffer or a truncated
header); it is an `OSError`, not a subclass of
`Image.DecompressionBombError`, and carries a diagnostic message.
`bomb` is `Image.DecompressionBombError`. -/
inductive PilOpenResult where
  | ok (w h tag : ℕ)
  | unidentified (msg : String)
  | bomb
deriving DecidableEq, Repr

/-- Outcome of `model.generate_content([prompt, img])` followed by
`response.text`.  `ok` carries the extracted text; `stopCandidate` is
the google-generativeai `StopCandidateException` (generation refused or
terminated early); `otherExc` is any other exception (network failure,
quota, `ValueError` from `response.text`, ...), with its message. -/
inductive GenResult where
  | ok (text : String)
  | stopCandidate (msg : String)
  | otherExc (msg : String)
deriving DecidableEq, Repr

/-- One `POST /analyze` request as the handler observes it:
whether `request.files` has an `image` entry, that entry's declared
filename (a string: werkzeug only places multipart parts carrying a
filename parameter into `request.files`), and the uploaded bytes. -/
structure Request where
  hasImageField : Bool
  filename : String
  content : List ℕ
deriving DecidableEq, Repr

/-- The effectful environment of one request: what PIL's decoding does
on a byte buffer, and what the Gemini call does given the prompt and the
normalized image dimensions. -/
structure Env where
  decode : List ℕ → PilOpenResult
  generate : String → ℕ × ℕ → GenResult

/-- Process-wide configuration: whether the module-level `model` handle
was successfully constructed at startup (`model is not None`). -/
structure Config where
  configured : Bool
deriving DecidableEq, Repr

/-- A JSON response: HTTP status code and the object's key/value pairs. -/
structure HttpResponse where
  status : ℕ
  body : List (String × String)
deriving DecidableEq, Repr

/-- Message of the 500 response when the model handle is `None`. -/
def notConfiguredMsg : String := "Gemini API not configured. Check server logs."

/-- Message of the 400 response when `request.files` has no `image`. -/
def noFileMsg : String := "No image file provided"

/-- Message of the 400 response when the sanitized filename is empty. -/
def noSelectionMsg : String := "No image selected"

/-- Message of the 400 response of the `Image.DecompressionBombError`
handler. -/
def bombMsg : String := "Image is too large or corrupt. Please use a smaller image."

/-- Message of the 500 response of the `StopCandidateException` handler. -/
def flaggedMsg : String := "Analysis failed or content flagged by API."

/-- Message of the 500 response of the final `except Exception` handler
(an f-string with no interpolated field, hence a fixed string). -/
def internalErrorMsg : String := "An internal error occurred during analysis."

/-- Message of the unreachable fallback 400 response after `if file:`. -/
def invalidFileMsg : String := "Invalid file uploaded"

/-- The fixed prompt sent to the model. -/
def analysisPrompt : String :=
  "Identify the main items or objects visible in this image. Provide a list or a short description."

/-- werkzeug `FileStorage.__bool__`: a file object is truthy exactly
when its `filename` attribute is truthy, i.e. a non-empty string. -/
def fileBool (req : Request) : Bool := req.filename ≠ ""

/-- The `try`/`except` processing block guarded by `if file:` in
`analyze_image`: read the bytes, decode (`Image.open`), correct
orientation (`ImageOps.exif_transpose`), downscale
(`img.thumbnail((800, 800), LANCZOS)`), call the model and extract the
text.  Each `except` clause becomes a branch of the outcome analysis.
The boolean records whether `model.generate_content` was invoked. -/
def processFile (req : Request) (env : Env) : HttpResponse × Bool :=
  match env.decode req.content with
  | .bomb => (⟨400, [("error", bombMsg)]⟩, false)
  | .unidentified _ => (⟨500, [("error", internalErrorMsg)]⟩, false)
  | .ok w h tag =>
      let t := exifTransposeSize tag w h
      let dims := thumbnailSize t.1 t.2 800 800
      match env.generate analysisPrompt dims with
      | .ok text => (⟨200, [("description", text)]⟩, true)
      | .stopCandidate _ => (⟨500, [("error", flaggedMsg)]⟩, true)
      | .otherExc _ => (⟨500, [("error", internalErrorMsg)]⟩, true)

/-- The `analyze_image` request handler of `app.py`: the `model is None`
check, the `'image' not in request.files` check, the
`secure_filename` sanitization, the empty-sanitized-filename check, the
`if file:` truthiness guard, the processing block, and the final
fallback response.  The boolean records whether the model was called. -/
def analyze_image (cfg : Config) (req : Request) (env : Env) :
    HttpResponse × Bool :=
  if cfg.configured = false then
    (⟨500, [("error", notConfiguredMsg)]⟩, false)
  else if req.hasImageField = false then
    (⟨400, [("error", noFileMsg)]⟩, false)
  else
    let filename := secure_filename req.filename
    if filename = "" then
      (⟨400, [("error", noSelectionMsg)]⟩, false)
    else if fileBool req then
      processFile req env
    else
      (⟨400, [("error", invalidFileMsg)]⟩, false)

/-- A model environment in which decoding fails with PIL's
`UnidentifiedImageError`, as `Image.open` does on an empty or
truncated byte buffer. -/
def envUndecodable : Env :=
  ⟨fun _ => .unidentified "cannot identify image file", fun _ _ => .ok "unused"⟩

/-- A model environment in which decoding succeeds with a small image
and the model call returns a short description. -/
def envOkCat : Env :=
  ⟨fun _ => .ok 640 480 0, fun _ _ => .ok "a cat on a sofa"⟩

/-- A model environment in which the model call raises
`StopCandidateException`. -/
def envFlagged : Env :=
  ⟨fun _ => .ok 640 480 0, fun _ _ => .stopCandidate "finish_reason: SAFETY"⟩

lemma secure_filename_empty : secure_filename "" = "" := rfl

lemma secure_filename_photo : secure_filename "photo.jpg" ≠ "" := by decide

/-- The raw filename is non-empty whenever its sanitization is. -/
lemma filename_ne_of_sanitized_ne {s : String}
    (h : secure_filename s ≠ "") : s ≠ "" := by
  intro e
  exact h (by rw [e, secure_filename_empty])


/-- Claim C2: with the module-level model handle `None`, every call to
`POST /analyze` returns status 500 with the configuration error message,
for every request and every environment, so before and independent of
any input validation; the model is never called. -/
theorem C2_unconfigured_always_500 (req : Request) (env : Env) :
    analyze_image ⟨false⟩ req env =
      (⟨500, [("error", notConfiguredMsg)]⟩, false) := by
  simp [analyze_image]

/-- Claim C3: with the model configured, a request with no `image` file
field or with an empty filename receives status 400 (hence never 200)
with a single `error` entry whose message is the missing-file or the
no-selection message. -/
theorem C3_missing_or_empty_filename_400 (req : Request) (env : Env)
    (h : req.hasImageField = false ∨ req.filename = "") :
    (analyze_image ⟨true⟩ req env).1.status = 400 ∧
      (analyze_image ⟨true⟩ req env).1.status ≠ 200 ∧
      ∃ m, (analyze_image ⟨true⟩ req env).1.body = [("error", m)] ∧
        (m = noFileMsg ∨ m = noSelectionMsg) := by
  rcases h with h | h
  · simp [analyze_image, h]
  · cases hf : req.hasImageField
    · simp [analyze_image, hf]
    · simp [analyze_image, hf, h, secure_filename_empty]

/-- Witness for C3 at a concrete request with no `image` field. -/
theorem C3_missing_or_empty_filename_400_witness :
    ((⟨false, "x", []⟩ : Request).hasImageField = false ∨
        (⟨false, "x", []⟩ : Request).filename = "") ∧
      ((analyze_image ⟨true⟩ ⟨false, "x", []⟩ envOkCat).1.status = 400 ∧
        (analyze_image ⟨true⟩ ⟨false, "x", []⟩ envOkCat).1.status ≠ 200 ∧
        ∃ m, (analyze_image ⟨true⟩ ⟨false, "x", []⟩ envOkCat).1.body =
            [("error", m)] ∧ (m = noFileMsg ∨ m = noSelectionMsg)) :=
  ⟨Or.inl rfl,
    C3_missing_or_empty_filename_400 ⟨false, "x", []⟩ envOkCat (Or.inl rfl)⟩

/-- Claim C5: when the model call raises `StopCandidateException`
(generation refused or terminated early), the response is a 500 with the
specific flagged message, and that message differs from the generic
internal-error message. -/
theorem C5_stop_candidate_flagged (req : Request) (env : Env)
    (hc : req.hasImageField = true)
    (hn : secure_filename req.filename ≠ "")
    (w h tag : ℕ) (hd : env.decode req.content = .ok w h tag)
    (m : String) (hg : ∀ p d, env.generate p d = .stopCandidate m) :
    (analyze_image ⟨true⟩ req env).1 = ⟨500, [("error", flaggedMsg)]⟩ ∧
      flaggedMsg ≠ internalErrorMsg := by
  have hraw := filename_ne_of_sanitized_ne hn
  refine ⟨?_, by decide⟩
  simp [analyze_image, hc, hn, fileBool, hraw, processFile, hd, hg]

/-- Witness for C5 at a concrete request and flagged environment. -/
theorem C5_stop_candidate_flagged_witness :
    (⟨true, "photo.jpg", [1, 2]⟩ : Request).hasImageField = true ∧
      secure_filename (⟨true, "photo.jpg", [1, 2]⟩ : Request).filename ≠ "" ∧
      envFlagged.decode [1, 2] = .ok 640 480 0 ∧
      (∀ p d, envFlagged.generate p d =
        .stopCandidate "finish_reason: SAFETY") ∧
      ((analyze_image ⟨true⟩ ⟨true, "photo.jpg", [1, 2]⟩ envFlagged).1 =
          ⟨500, [("error", flaggedMsg)]⟩ ∧ flaggedMsg ≠ internalErrorMsg) :=
  ⟨rfl, secure_filename_photo, rfl, fun _ _ => rfl,
    C5_stop_candidate_flagged ⟨true, "photo.jpg", [1, 2]⟩ envFlagged rfl
      secure_filename_photo 640 480 0 rfl "finish_reason: SAFETY"
      fun _ _ => rfl⟩

/-- Claim C6: the generic `except Exception` response does not depend on
the exception: for any two exception messages, running the handler in
environments that differ only in those messages gives identical
responses (whether the exception arises at the model call or at image
decoding), and in the generic branch the body is the fixed
internal-error string. -/
theorem C6_generic_body_independent_of_exception
    (req : Request) (d : List ℕ → PilOpenResult) (e1 e2 : String) :
    analyze_image ⟨true⟩ req ⟨d, fun _ _ => .otherExc e1⟩ =
      analyze_image ⟨true⟩ req ⟨d, fun _ _ => .otherExc e2⟩ ∧
    analyze_image ⟨true⟩ req
        ⟨fun _ => .unidentified e1, fun _ _ => .otherExc e1⟩ =
      analyze_image ⟨true⟩ req
        ⟨fun _ => .unidentified e2, fun _ _ => .otherExc e2⟩ ∧
    (analyze_image ⟨true⟩ ⟨true, "photo.jpg", []⟩
        ⟨fun _ => .ok 4 3 0, fun _ _ => .otherExc e1⟩).1 =
      ⟨500, [("error", internalErrorMsg)]⟩ := by
  refine ⟨?_, ?_, ?_⟩
  · simp only [analyze_image, processFile]
  · rfl
  · simp [analyze_image, secure_filename_photo, fileBool, processFile]

/-- Claim C7: with the model configured, a decodable in-bounds image and
a successful model call producing text `t`, the response is a 200 whose
body is exactly `{"description": t}`; the description is the model's
text and is non-empty whenever that text is. -/
theorem C7_success_200_description (req : Request) (env : Env)
    (hc : req.hasImageField = true)
    (hn : secure_filename req.filename ≠ "")
    (w h tag : ℕ) (hd : env.decode req.content = .ok w h tag)
    (_hw : w ≤ 800) (_hh : h ≤ 800)
    (t : String) (ht : t ≠ "") (hg : ∀ p d, env.generate p d = .ok t) :
    (analyze_image ⟨true⟩ req env).1 = ⟨200, [("description", t)]⟩ ∧
      t ≠ "" := by
  have hraw := filename_ne_of_sanitized_ne hn
  refine ⟨?_, ht⟩
  simp [analyze_image, hc, hn, fileBool, hraw, processFile, hd, hg]

/-- Witness for C7 at a concrete request and successful environment. -/
theorem C7_success_200_description_witness :
    (⟨true, "photo.jpg", [1, 2]⟩ : Request).hasImageField = true ∧
      secure_filename (⟨true, "photo.jpg", [1, 2]⟩ : Request).filename ≠ "" ∧
      envOkCat.decode [1, 2] = .ok 640 480 0 ∧
      (640 ≤ 800 ∧ 480 ≤ 800) ∧
      "a cat on a sofa" ≠ "" ∧
      (∀ p d, envOkCat.generate p d = .ok "a cat on a sofa") ∧
      ((analyze_image ⟨true⟩ ⟨true, "photo.jpg", [1, 2]⟩ envOkCat).1 =
          ⟨200, [("description", "a cat on a sofa")]⟩ ∧
        "a cat on a sofa" ≠ "") :=
  ⟨rfl, secure_filename_photo, rfl, by decide, by decide, fun _ _ => rfl,
    C7_success_200_description ⟨true, "photo.jpg", [1, 2]⟩ envOkCat rfl
      secure_filename_photo 640 480 0 rfl (by decide) (by decide)
      "a cat on a sofa" (by decide) fun _ _ => rfl⟩

/-- Claim C9: the emptiness check is applied to the sanitized filename:
a request whose raw filename is non-empty but sanitizes to the empty
string receives status 400 with the no-selection message, and the model
is never called (the call flag is `false`). -/
theorem C9_sanitized_empty_400 (req : Request) (env : Env)
    (hc : req.hasImageField = true) (_hraw : req.filename ≠ "")
    (hs : secure_filename req.filename = "") :
    analyze_image ⟨true⟩ req env =
      (⟨400, [("error", noSelectionMsg)]⟩, false) := by
  simp [analyze_image, hc, hs]

/-- Witness for C9: the raw filename `"../.."` is non-empty but
sanitizes to the empty string. -/
theorem C9_sanitized_empty_400_witness :
    (⟨true, "../..", []⟩ : Request).hasImageField = true ∧
      (⟨true, "../..", []⟩ : Request).filename ≠ "" ∧
      secure_filename (⟨true, "../..", []⟩ : Request).filename = "" ∧
      analyze_image ⟨true⟩ ⟨true, "../..", []⟩ envOkCat =
        (⟨400, [("error", noSelectionMsg)]⟩, false) :=
  ⟨rfl, by decide, by decide,
    C9_sanitized_empty_400 ⟨true, "../..", []⟩ envOkCat rfl (by decide)
      (by decide)⟩

/-- Every response produced inside the processing block differs from
the fallback invalid-file body. -/
lemma processFile_body_ne_invalid (req : Request) (env : Env) :
    (processFile req env).1.body ≠ [("error", invalidFileMsg)] := by
  rcases hd : env.decode req.content with ⟨w, h, tag⟩ | m | _
  · rcases hg : env.generate analysisPrompt
        (thumbnailSize (exifTransposeSize tag w h).1
          (exifTransposeSize tag w h).2 800 800) with t | m | m <;>
      simp [processFile, hd, hg, flaggedMsg, internalErrorMsg, invalidFileMsg]
  · simp [processFile, hd, internalErrorMsg, invalidFileMsg]
  · simp [processFile, hd, bombMsg, invalidFileMsg]

/-- Claim C10: the final fallback `return jsonify({"error": "Invalid
file uploaded"}), 400` is unreachable.  Once the configuration check,
the field-presence check and the non-empty-sanitized-filename check have
passed, the werkzeug truthiness of the file object (`bool(filename)`) is
necessarily true, the handler's result is the processing block's result,
and the fallback body is never returned. -/
theorem C10_fallback_unreachable (cfg : Config) (req : Request) (env : Env)
    (hcfg : cfg.configured = true) (hc : req.hasImageField = true)
    (hs : secure_filename req.filename ≠ "") :
    fileBool req = true ∧
      analyze_image cfg req env = processFile req env ∧
      (analyze_image cfg req env).1.body ≠ [("error", invalidFileMsg)] := by
  have hraw := filename_ne_of_sanitized_ne hs
  have hb : fileBool req = true := by simp [fileBool, hraw]
  have h2 : analyze_image cfg req env = processFile req env := by
    simp [analyze_image, hcfg, hc, hs, hb]
  rw [h2]
  exact ⟨hb, rfl, processFile_body_ne_invalid req env⟩

/-- Witness for C10 at a concrete configured request. -/
theorem C10_fallback_unreachable_witness :
    (⟨true⟩ : Config).configured = true ∧
      (⟨true, "photo.jpg", []⟩ : Request).hasImageField = true ∧
      secure_filename (⟨true, "photo.jpg", []⟩ : Request).filename ≠ "" ∧
      (fileBool ⟨true, "photo.jpg", []⟩ = true ∧
        analyze_image ⟨true⟩ ⟨true, "photo.jpg", []⟩ envOkCat =
          processFile ⟨true, "photo.jpg", []⟩ envOkCat ∧
        (analyze_image ⟨true⟩ ⟨true, "photo.jpg", []⟩ envOkCat).1.body ≠
          [("error", invalidFileMsg)]) :=
  ⟨rfl, rfl, secure_filename_photo,
    C10_fallback_unreachable ⟨true⟩ ⟨true, "photo.jpg", []⟩ envOkCat rfl rfl
      secure_filename_photo⟩

/-- Claim C8: for every configuration, request and environment outcome,
the handler returns a response that is either a 200 with a single
`description` entry or a 400/500 with a single `error` entry; being a
total function of those inputs, nothing escapes the handler. -/
theorem C8_all_failures_mapped (cfg : Config) (req : Request) (env : Env) :
    ((analyze_image cfg req env).1.status = 200 ∧
        ∃ t, (analyze_image cfg req env).1.body = [("description", t)]) ∨
      (((analyze_image cfg req env).1.status = 400 ∨
          (analyze_image cfg req env).1.status = 500) ∧
        ∃ m, (analyze_image cfg req env).1.body = [("error", m)]) := by
  rcases cfg with ⟨c⟩
  cases c
  · exact Or.inr ⟨Or.inr rfl, notConfiguredMsg, rfl⟩
  · cases hf : req.hasImageField
    · right
      simp [analyze_image, hf]
    · by_cases hs : secure_filename req.filename = ""
      · right
        simp [analyze_image, hf, hs]
      · by_cases hb : fileBool req = true
        · have h2 : analyze_image ⟨true⟩ req env = processFile req env := by
            simp [analyze_image, hf, hs, hb]
          rw [h2]
          rcases hd : env.decode req.content with ⟨w, h, tag⟩ | m | _
          · rcases hg : env.generate analysisPrompt
                (thumbnailSize (exifTransposeSize tag w h).1
                  (exifTransposeSize tag w h).2 800 800) with t | m | m
            · left
              simp [processFile, hd, hg]
            · right
              simp [processFile, hd, hg]
            · right
              simp [processFile, hd, hg]
          · right
            simp [processFile, hd]
          · right
            simp [processFile, hd]
        · right
          simp [analyze_image, hf, hs, hb]

/-- Counterexample to claim C1 as stated: the empty byte buffer does
not decode as an image (PIL raises `UnidentifiedImageError`, not
`DecompressionBombError`), and the handler answers 500 with the generic
internal-error body, not the claimed 400 with the too-large-or-corrupt
message. -/
theorem C1_counterexample :
    (analyze_image ⟨true⟩ ⟨true, "photo.jpg", []⟩ envUndecodable).1.status
        = 500 ∧
      (analyze_image ⟨true⟩ ⟨true, "photo.jpg", []⟩ envUndecodable).1.status
        ≠ 400 ∧
      (analyze_image ⟨true⟩ ⟨true, "photo.jpg", []⟩ envUndecodable).1.body
        = [("error", internalErrorMsg)] := by
  decide

/-- Claim C1 amended: only a decoding failure that raises
`Image.DecompressionBombError` is answered with 400 and the
too-large-or-corrupt message; a buffer that does not decode as a raster
image at all (empty buffer, truncated header: `UnidentifiedImageError`)
falls through to the generic handler and is answered with 500 and the
generic internal-error message. -/
theorem C1_amended_decode_failures (req : Request) (env : Env)
    (hc : req.hasImageField = true)
    (hn : secure_filename req.filename ≠ "") :
    (env.decode req.content = .bomb →
      (analyze_image ⟨true⟩ req env).1 = ⟨400, [("error", bombMsg)]⟩) ∧
    (∀ m, env.decode req.content = .unidentified m →
      (analyze_image ⟨true⟩ req env).1 =
        ⟨500, [("error", internalErrorMsg)]⟩) := by
  have hraw := filename_ne_of_sanitized_ne hn
  have hb : fileBool req = true := by simp [fileBool, hraw]
  have h2 : analyze_image ⟨true⟩ req env = processFile req env := by
    simp [analyze_image, hc, hn, hb]
  constructor
  · intro hd
    rw [h2]
    simp [processFile, hd]
  · intro m hd
    rw [h2]
    simp [processFile, hd]

/-- Witness for the amended C1 at the empty buffer. -/
theorem C1_amended_decode_failures_witness :
    (⟨true, "photo.jpg", []⟩ : Request).hasImageField = true ∧
      secure_filename (⟨true, "photo.jpg", []⟩ : Request).filename ≠ "" ∧
      ((envUndecodable.decode [] = .bomb →
          (analyze_image ⟨true⟩ ⟨true, "photo.jpg", []⟩ envUndecodable).1 =
            ⟨400, [("error", bombMsg)]⟩) ∧
        (∀ m, envUndecodable.decode [] = .unidentified m →
          (analyze_image ⟨true⟩ ⟨true, "photo.jpg", []⟩ envUndecodable).1 =
            ⟨500, [("error", internalErrorMsg)]⟩)) :=
  ⟨rfl, secure_filename_photo,
    C1_amended_decode_failures ⟨true, "photo.jpg", []⟩ envUndecodable rfl
      secure_filename_photo⟩

/-- The `round_aspect` result is at least 1 (the outer `max(..., 1)`). -/
lemma round_aspect_one_le (n : ℚ) (k : ℤ → ℚ) : 1 ≤ round_aspect n k :=
  le_max_right _ _

/-- The `round_aspect` result never exceeds a bound that is at least 1
and at least the rounded value. -/
lemma round_aspect_le (n : ℚ) (k : ℤ → ℚ) (B : ℤ) (hB : 1 ≤ B)
    (hn : n ≤ (B : ℚ)) : round_aspect n k ≤ B := by
  have hceil : ⌈n⌉ ≤ B := Int.ceil_le.mpr hn
  have hfloor : ⌊n⌋ ≤ B := (Int.floor_le_ceil n).trans hceil
  unfold round_aspect
  by_cases hk : k ⌈n⌉ < k ⌊n⌋
  · rw [if_pos hk]
    exact max_le hceil hB
  · rw [if_neg hk]
    exact max_le hfloor hB

/-- For a positive value, `round_aspect` is within one unit of the exact
value: whichever of floor and ceiling the key selects, and even after
clamping to 1, the distance stays below 1. -/
lemma round_aspect_close (n : ℚ) (k : ℤ → ℚ) (hn : 0 < n) :
    |((round_aspect n k : ℤ) : ℚ) - n| < 1 := by
  unfold round_aspect
  rw [abs_sub_lt_iff]
  by_cases hk : k ⌈n⌉ < k ⌊n⌋
  · rw [if_pos hk]
    have h1 : (1 : ℤ) ≤ ⌈n⌉ := by
      have := Int.ceil_pos.mpr hn
      omega
    rw [max_eq_left h1]
    have h2 := Int.ceil_lt_add_one n
    have h3 := Int.le_ceil n
    constructor <;> linarith
  · rw [if_neg hk]
    by_cases h1 : (1 : ℤ) ≤ ⌊n⌋
    · rw [max_eq_left h1]
      have h2 := Int.floor_le n
      have h3 := Int.sub_one_lt_floor n
      constructor <;> linarith
    · have h0 : ⌊n⌋ = 0 := by
        have := Int.floor_nonneg.mpr hn.le
        omega
      rw [max_eq_right (by omega : ⌊n⌋ ≤ 1)]
      have h2 : n < 1 := by
        have h3 := Int.lt_floor_add_one n
        rw [h0] at h3
        push_cast at h3
        linarith
      push_cast
      constructor <;> linarith

/-- Core properties of `thumbnailSize` at the fixed `(800, 800)` bound
used by `analyze_image`: the result fits within the bound, an image
already within the bound is returned unchanged, and the scaled pair
equals the exact aspect-preserving pair up to strictly less than one
pixel of rounding, stated cross-multiplied. -/
lemma thumbnailSize_core (w h : ℕ) (hw : 1 ≤ w) (hh : 1 ≤ h) :
    (thumbnailSize w h 800 800).1 ≤ 800 ∧
      (thumbnailSize w h 800 800).2 ≤ 800 ∧
      (w ≤ 800 → h ≤ 800 → thumbnailSize w h 800 800 = (w, h)) ∧
      |((thumbnailSize w h 800 800).1 : ℚ) * (h : ℚ) -
          ((thumbnailSize w h 800 800).2 : ℚ) * (w : ℚ)| <
        max (w : ℚ) (h : ℚ) := by
  have hw0 : (0 : ℚ) < (w : ℚ) := by exact_mod_cast hw
  have hh0 : (0 : ℚ) < (h : ℚ) := by exact_mod_cast hh
  have c8 : ((800 : ℕ) : ℚ) = (800 : ℚ) := by norm_num
  unfold thumbnailSize
  split_ifs with hin hasp
  · refine ⟨hin.1, hin.2, fun _ _ => rfl, ?_⟩
    show |(w : ℚ) * (h : ℚ) - (h : ℚ) * (w : ℚ)| < max (w : ℚ) (h : ℚ)
    have hz : (w : ℚ) * (h : ℚ) - (h : ℚ) * (w : ℚ) = 0 := by ring
    rw [hz, abs_zero]
    exact lt_of_lt_of_le hw0 (le_max_left _ _)
  · -- width does not exceed height: the requested width shrinks
    rw [c8] at hasp
    have hasp1 : (w : ℚ) / (h : ℚ) ≤ 1 := by
      rw [div_self (by norm_num : (800 : ℚ) ≠ 0)] at hasp
      exact hasp
    set n : ℚ := ((800 : ℕ) : ℚ) * ((w : ℚ) / (h : ℚ)) with hn
    set k : ℤ → ℚ :=
      fun m => |(w : ℚ) / (h : ℚ) - (m : ℚ) / ((800 : ℕ) : ℚ)| with hk
    have hnpos : 0 < n := by
      rw [hn, c8]
      exact mul_pos (by norm_num) (div_pos hw0 hh0)
    have hnle : n ≤ (((800 : ℤ)) : ℚ) := by
      rw [hn, c8]
      push_cast
      nlinarith [hasp1]
    have hr1 : 1 ≤ round_aspect n k := round_aspect_one_le n k
    have hr8 : round_aspect n k ≤ (800 : ℤ) :=
      round_aspect_le n k 800 (by norm_num) hnle
    have hrc : |((round_aspect n k : ℤ) : ℚ) - n| < 1 :=
      round_aspect_close n k hnpos
    have hr0 : (0 : ℤ) ≤ round_aspect n k := by linarith
    have htn : ((round_aspect n k).toNat : ℤ) = round_aspect n k :=
      Int.toNat_of_nonneg hr0
    have hcast : (((round_aspect n k).toNat : ℕ) : ℚ) =
        ((round_aspect n k : ℤ) : ℚ) := by
      rw [← htn]
      norm_cast
    refine ⟨by omega, le_refl 800, fun hw8 hh8 => absurd ⟨hw8, hh8⟩ hin, ?_⟩
    show |(((round_aspect n k).toNat : ℕ) : ℚ) * (h : ℚ) -
        ((800 : ℕ) : ℚ) * (w : ℚ)| < max (w : ℚ) (h : ℚ)
    rw [hcast]
    have key : ((round_aspect n k : ℤ) : ℚ) * (h : ℚ) -
        ((800 : ℕ) : ℚ) * (w : ℚ) =
        (((round_aspect n k : ℤ) : ℚ) - n) * (h : ℚ) := by
      rw [hn]
      field_simp
    rw [key, abs_mul, abs_of_pos hh0]
    have hlt : |((round_aspect n k : ℤ) : ℚ) - n| * (h : ℚ) < (h : ℚ) := by
      nlinarith [hrc, hh0, abs_nonneg (((round_aspect n k : ℤ) : ℚ) - n)]
    exact lt_of_lt_of_le hlt (le_max_right _ _)
  · -- width exceeds height: the requested height shrinks
    rw [c8] at hasp
    rw [div_self (by norm_num : (800 : ℚ) ≠ 0)] at hasp
    have hasp1 : 1 < (w : ℚ) / (h : ℚ) := lt_of_not_le hasp
    set n : ℚ := ((800 : ℕ) : ℚ) / ((w : ℚ) / (h : ℚ)) with hn
    set k : ℤ → ℚ :=
      fun m => if m = 0 then 0
        else |(w : ℚ) / (h : ℚ) - ((800 : ℕ) : ℚ) / (m : ℚ)| with hk
    have hnpos : 0 < n := by
      rw [hn, c8]
      exact div_pos (by norm_num) (div_pos hw0 hh0)
    have hnle : n ≤ (((800 : ℤ)) : ℚ) := by
      rw [hn, c8]
      push_cast
      exact div_le_self (by norm_num) hasp1.le
    have hr1 : 1 ≤ round_aspect n k := round_aspect_one_le n k
    have hr8 : round_aspect n k ≤ (800 : ℤ) :=
      round_aspect_le n k 800 (by norm_num) hnle
    have hrc : |((round_aspect n k : ℤ) : ℚ) - n| < 1 :=
      round_aspect_close n k hnpos
    have hr0 : (0 : ℤ) ≤ round_aspect n k := by linarith
    have htn : ((round_aspect n k).toNat : ℤ) = round_aspect n k :=
      Int.toNat_of_nonneg hr0
    have hcast : (((round_aspect n k).toNat : ℕ) : ℚ) =
        ((round_aspect n k : ℤ) : ℚ) := by
      rw [← htn]
      norm_cast
    refine ⟨le_refl 800, by omega, fun hw8 hh8 => absurd ⟨hw8, hh8⟩ hin, ?_⟩
    show |((800 : ℕ) : ℚ) * (h : ℚ) -
        (((round_aspect n k).toNat : ℕ) : ℚ) * (w : ℚ)| <
      max (w : ℚ) (h : ℚ)
    rw [hcast, abs_sub_comm]
    have key : ((round_aspect n k : ℤ) : ℚ) * (w : ℚ) -
        ((800 : ℕ) : ℚ) * (h : ℚ) =
        (((round_aspect n k : ℤ) : ℚ) - n) * (w : ℚ) := by
      rw [hn]
      field_simp
    rw [key, abs_mul, abs_of_pos hw0]
    have hlt : |((round_aspect n k : ℤ) : ℚ) - n| * (w : ℚ) < (w : ℚ) := by
      nlinarith [hrc, hw0, abs_nonneg (((round_aspect n k : ℤ) : ℚ) - n)]
    exact lt_of_lt_of_le hlt (le_max_left _ _)

/-- Claim C4: for every decoded image, the normalization step
(orientation correction followed by `thumbnail((800, 800))`) yields
dimensions in which neither side exceeds 800; an orientation-corrected
image already within the 800x800 bound keeps its dimensions (no
upscaling); and the output pair equals the exact aspect-ratio-preserving
scaling of the orientation-corrected input up to strictly less than one
pixel, stated cross-multiplied. -/
theorem C4_normalization_bounds (tag w h : ℕ) (hw : 1 ≤ w) (hh : 1 ≤ h) :
    (thumbnailSize (exifTransposeSize tag w h).1
        (exifTransposeSize tag w h).2 800 800).1 ≤ 800 ∧
      (thumbnailSize (exifTransposeSize tag w h).1
          (exifTransposeSize tag w h).2 800 800).2 ≤ 800 ∧
      ((exifTransposeSize tag w h).1 ≤ 800 →
        (exifTransposeSize tag w h).2 ≤ 800 →
        thumbnailSize (exifTransposeSize tag w h).1
            (exifTransposeSize tag w h).2 800 800 =
          exifTransposeSize tag w h) ∧
      |((thumbnailSize (exifTransposeSize tag w h).1
            (exifTransposeSize tag w h).2 800 800).1 : ℚ) *
            ((exifTransposeSize tag w h).2 : ℚ) -
          ((thumbnailSize (exifTransposeSize tag w h).1
            (exifTransposeSize tag w h).2 800 800).2 : ℚ) *
            ((exifTransposeSize tag w h).1 : ℚ)| <
        max ((exifTransposeSize tag w h).1 : ℚ)
          ((exifTransposeSize tag w h).2 : ℚ) := by
  have h1 : 1 ≤ (exifTransposeSize tag w h).1 := by
    unfold exifTransposeSize
    split
    · exact hh
    · exact hw
  have h2 : 1 ≤ (exifTransposeSize tag w h).2 := by
    unfold exifTransposeSize
    split
    · exact hw
    · exact hh
  obtain ⟨a, b, c, d⟩ :=
    thumbnailSize_core (exifTransposeSize tag w h).1
      (exifTransposeSize tag w h).2 h1 h2
  exact ⟨a, b, fun hx hy => (c hx hy).trans Prod.mk.eta, d⟩

/-- Witness for C4 on a 2000x1500 image with no orientation metadata. -/
theorem C4_normalization_bounds_witness :
    1 ≤ 2000 ∧ 1 ≤ 1500 ∧
      ((thumbnailSize (exifTransposeSize 0 2000 1500).1
          (exifTransposeSize 0 2000 1500).2 800 800).1 ≤ 800 ∧
        (thumbnailSize (exifTransposeSize 0 2000 1500).1
            (exifTransposeSize 0 2000 1500).2 800 800).2 ≤ 800 ∧
        ((exifTransposeSize 0 2000 1500).1 ≤ 800 →
          (exifTransposeSize 0 2000 1500).2 ≤ 800 →
          thumbnailSize (exifTransposeSize 0 2000 1500).1
              (exifTransposeSize 0 2000 1500).2 800 800 =
            exifTransposeSize 0 2000 1500) ∧
        |((thumbnailSize (exifTransposeSize 0 2000 1500).1
              (exifTransposeSize 0 2000 1500).2 800 800).1 : ℚ) *
              ((exifTransposeSize 0 2000 1500).2 : ℚ) -
            ((thumbnailSize (exifTransposeSize 0 2000 1500).1
              (exifTransposeSize 0 2000 1500).2 800 800).2 : ℚ) *
              ((exifTransposeSize 0 2000 1500).1 : ℚ)| <
          max ((exifTransposeSize 0 2000 1500).1 : ℚ)
            ((exifTransposeSize 0 2000 1500).2 : ℚ)) :=
  ⟨by decide, by decide,
    C4_normalization_bounds 0 2000 1500 (by decide) (by decide)⟩
